import Mathlib

/-!
Verification of the turn-resolution and state-consistency engine of the
wgailifesim repository.  Definitions are shallow embeddings of the
TypeScript source: the check-resolution subsystem (GameUI component:
getRollStats, runRollAnimation outcome mapping, confirmReroll,
cancelReroll, handleProceedCritical), the trait sanitizer
(prompts.sanitizeTraits), the request constraint selection of
services/engine.ts makeTurn, and the merge function
updateGameStateFromResponse of App.tsx.
-/

namespace WgaiLifeSim

/-- The six attribute dimensions of the character sheet
(types.ts Attributes). -/
inductive AttrKey where
  | physique
  | intelligence
  | spirit
  | agility
  | charisma
  | politics
deriving DecidableEq, Repr

/-- An attribute set: one integer per dimension (types.ts Attributes). -/
structure Attributes where
  physique : Int
  intelligence : Int
  spirit : Int
  agility : Int
  charisma : Int
  politics : Int
deriving DecidableEq, Repr

/-- Field access `attrs[key]` on an attribute set. -/
def getAttr (a : Attributes) : AttrKey → Int
  | AttrKey.physique => a.physique
  | AttrKey.intelligence => a.intelligence
  | AttrKey.spirit => a.spirit
  | AttrKey.agility => a.agility
  | AttrKey.charisma => a.charisma
  | AttrKey.politics => a.politics

/-- Trait rarity enumeration (types.ts TraitRarity). -/
inductive TraitRarity where
  | COMMON
  | RARE
  | EPIC
  | LEGENDARY
  | CRIME
  | NEGATIVE
  | HIDDEN
deriving DecidableEq, Repr

/-- The string value of each rarity tag as it appears in types.ts. -/
def rarityString : TraitRarity → String
  | TraitRarity.COMMON => "普通"
  | TraitRarity.RARE => "稀有"
  | TraitRarity.EPIC => "罕见"
  | TraitRarity.LEGENDARY => "独特"
  | TraitRarity.CRIME => "罪名"
  | TraitRarity.NEGATIVE => "恶劣"
  | TraitRarity.HIDDEN => "隐秘"

/-- Membership of a raw string in the known rarity set
(the validRarities set built in sanitizeTraits). -/
def rarityOfString (s : String) : Option TraitRarity :=
  if s = "普通" then some TraitRarity.COMMON
  else if s = "稀有" then some TraitRarity.RARE
  else if s = "罕见" then some TraitRarity.EPIC
  else if s = "独特" then some TraitRarity.LEGENDARY
  else if s = "罪名" then some TraitRarity.CRIME
  else if s = "恶劣" then some TraitRarity.NEGATIVE
  else if s = "隐秘" then some TraitRarity.HIDDEN
  else none

/-- A sanitized trait as stored in game state (types.ts Trait).
Modifier maps are association lists over the attribute dimensions. -/
structure Trait where
  id : String
  name : String
  description : String
  rarity : TraitRarity
  modifiers : List (AttrKey × Int)
  duration : Option Int
deriving DecidableEq, Repr

/-- RollResult literals of the check subsystem (types.ts RollResult). -/
inductive RollResult where
  | NONE
  | FAILURE
  | CRITICAL_FAILURE
  | SUCCESS
  | CRITICAL_SUCCESS
deriving DecidableEq, Repr

/-- An offered choice as consumed by the check subsystem
(types.ts Choice, the fields used by getRollStats). -/
structure Choice where
  id : String
  text : String
  difficulty : Option Int
  requiredAttribute : Option String
deriving DecidableEq, Repr

/-- Decides whether the first character list is an initial segment of
the second (helper for the string operations below, defined over
character lists so that proofs can evaluate them). -/
def charListStarts : List Char → List Char → Bool
  | [], _ => true
  | _ :: _, [] => false
  | c :: cs, d :: ds => c == d && charListStarts cs ds

/-- Decides whether the first character list occurs contiguously
inside the second. -/
def charListHas (sub : List Char) : List Char → Bool
  | [] => charListStarts sub []
  | d :: ds => charListStarts sub (d :: ds) || charListHas sub ds

/-- Lowercasing, mirroring the JavaScript toLowerCase call of
normalizeAttrKey on its ASCII and Chinese inputs. -/
def sToLower (s : String) : String :=
  String.mk (s.data.map Char.toLower)

/-- Whitespace trimming at both ends, mirroring the JavaScript trim
call of normalizeAttrKey. -/
def sTrim (s : String) : String :=
  String.mk (((s.data.dropWhile Char.isWhitespace).reverse.dropWhile
    Char.isWhitespace).reverse)

/-- Head test, mirroring the JavaScript String.startsWith calls of
normalizeAttrKey (true when s begins with stem). -/
def strStarts (s stem : String) : Bool :=
  charListStarts stem.data s.data

/-- Substring test, mirroring the JavaScript String.includes calls of
normalizeAttrKey (true when sub occurs inside s). -/
def strIncludes (s sub : String) : Bool :=
  charListHas sub.data s.data

/-- Embedding of normalizeAttrKey from the GameUI component: lowercases
and trims the proposed attribute key, then matches known stems and
Chinese labels, with a final fallback on the exact attribute names.
A missing or empty key yields none. -/
def normalizeAttrKey (key : Option String) : Option AttrKey :=
  match key with
  | none => none
  | some key0 =>
    if key0 = "" then none
    else
      let k := sTrim (sToLower key0)
      if strStarts k "pol" || strIncludes k "政治" then some AttrKey.politics
      else if strStarts k "phy" || strStarts k "str" || strStarts k "bod"
          || strIncludes k "体格" then some AttrKey.physique
      else if strStarts k "int" || strStarts k "wis" || strStarts k "sma"
          || strStarts k "zhi" || strIncludes k "智力" then some AttrKey.intelligence
      else if strStarts k "spi" || strStarts k "wil" || strStarts k "men"
          || strStarts k "jing" || strIncludes k "精神" then some AttrKey.spirit
      else if strStarts k "agi" || strStarts k "dex" || strStarts k "spe"
          || strStarts k "shen" || strIncludes k "身手" then some AttrKey.agility
      else if strStarts k "cha" || strStarts k "app" || strStarts k "per"
          || strStarts k "mei" || strIncludes k "魅力" then some AttrKey.charisma
      else if k = "physique" then some AttrKey.physique
      else if k = "intelligence" then some AttrKey.intelligence
      else if k = "spirit" then some AttrKey.spirit
      else if k = "agility" then some AttrKey.agility
      else if k = "charisma" then some AttrKey.charisma
      else if k = "politics" then some AttrKey.politics
      else none

/-- Result record of getRollStats in the GameUI component. -/
structure RollStats where
  effectiveThreshold : Int
  critThreshold : Int
  rawThreshold : Int
deriving DecidableEq, Repr

/-- Embedding of getRollStats from the GameUI component:
base difficulty defaults to 50, the governing attribute contributes
minus twice its effective value, the success threshold is clamped to
the band between 5 and 95, and when the raw threshold falls below 5 the
critical band floor of 95 is lowered by the shortfall, never below 20. -/
def getRollStats (effectiveAttributes : Attributes) (choice : Choice) : RollStats :=
  let baseDifficulty := choice.difficulty.getD 50
  let attrKey := normalizeAttrKey choice.requiredAttribute
  let attrVal := match attrKey with
    | some k => getAttr effectiveAttributes k
    | none => 0
  let rawThreshold := baseDifficulty - attrVal * 2
  let effectiveThreshold := max 5 (min 95 rawThreshold)
  let overflow := if rawThreshold < 5 then 5 - rawThreshold else 0
  let critThreshold := max 20 (95 - overflow)
  { effectiveThreshold := effectiveThreshold
    critThreshold := critThreshold
    rawThreshold := rawThreshold }

/-- Outcome mapping of the final draw in runRollAnimation:
draw at most 5 is a critical failure, then a draw at or above the
critical floor is a critical success, then a draw strictly above the
success threshold is a success, otherwise a failure. -/
def classifyRoll (roll threshold critThreshold : Int) : RollResult :=
  if roll ≤ 5 then RollResult.CRITICAL_FAILURE
  else if roll ≥ critThreshold then RollResult.CRITICAL_SUCCESS
  else if roll > threshold then RollResult.SUCCESS
  else RollResult.FAILURE

/-- Star award computed on the direct-resolution exit of
runRollAnimation: a final draw strictly above 85 together with an
ordinary SUCCESS earns one red star. -/
def earnStarOnResolve (roll : Int) (result : RollResult) : Bool :=
  decide (roll > 85) && decide (result = RollResult.SUCCESS)

/-- Interaction-scoped state of one roll sequence in the GameUI
component: the current success threshold, the critical floor fixed at
the start of the sequence, the accumulated red-star consumption, and
the red stars the character still holds. -/
structure RollSession where
  calculatedThreshold : Int
  activeCritThreshold : Int
  interactionStarsConsumed : Nat
  redStars : Nat
deriving DecidableEq, Repr

/-- Session opened by startRoll for a choice: thresholds from
getRollStats, consumption reset to zero. -/
def startRoll (effectiveAttributes : Attributes) (choice : Choice)
    (redStars : Nat) : RollSession :=
  let r := getRollStats effectiveAttributes choice
  { calculatedThreshold := r.effectiveThreshold
    activeCritThreshold := r.critThreshold
    interactionStarsConsumed := 0
    redStars := redStars }

/-- Embedding of confirmReroll: guarded on holding at least one red
star, it consumes one red star, counts it against the interaction,
and lowers the success threshold by 5 but never below 5; the critical
floor is kept. -/
def confirmReroll (s : RollSession) : RollSession :=
  if s.redStars = 0 then s
  else
    { calculatedThreshold := max 5 (s.calculatedThreshold - 5)
      activeCritThreshold := s.activeCritThreshold
      interactionStarsConsumed := s.interactionStarsConsumed + 1
      redStars := s.redStars - 1 }

/-- Terminal report of one interaction, as delivered through the
onChoice callback: the outcome, the star-award flag, and the aggregate
red stars consumed during the interaction. -/
structure InteractionReport where
  result : RollResult
  earnStar : Bool
  consumedRedStars : Nat
deriving DecidableEq, Repr

/-- One interaction of the check subsystem, driven by the list of
player reroll decisions: each decision pairs the accept flag with the
draw used for the next roll when accepted.  A success reports the
star-award rule, a critical success is accepted through
handleProceedCritical (earnStar true), a failure with no red stars or
a declined reroll reports the failure with the aggregate consumption,
and an accepted reroll re-runs the draw on the stepped session. -/
def resolveInteraction (s : RollSession) (draw : Int) :
    List (Bool × Int) → InteractionReport
  | [] =>
    let result := classifyRoll draw s.calculatedThreshold s.activeCritThreshold
    if result = RollResult.SUCCESS then
      { result := RollResult.SUCCESS
        earnStar := earnStarOnResolve draw result
        consumedRedStars := s.interactionStarsConsumed }
    else if result = RollResult.CRITICAL_SUCCESS then
      { result := RollResult.CRITICAL_SUCCESS
        earnStar := true
        consumedRedStars := s.interactionStarsConsumed }
    else
      { result := result
        earnStar := false
        consumedRedStars := s.interactionStarsConsumed }
  | (accept, nextDraw) :: rest =>
    let result := classifyRoll draw s.calculatedThreshold s.activeCritThreshold
    if result = RollResult.SUCCESS then
      { result := RollResult.SUCCESS
        earnStar := earnStarOnResolve draw result
        consumedRedStars := s.interactionStarsConsumed }
    else if result = RollResult.CRITICAL_SUCCESS then
      { result := RollResult.CRITICAL_SUCCESS
        earnStar := true
        consumedRedStars := s.interactionStarsConsumed }
    else if s.redStars = 0 then
      { result := result
        earnStar := false
        consumedRedStars := s.interactionStarsConsumed }
    else if accept then resolveInteraction (confirmReroll s) nextDraw rest
    else
      { result := result
        earnStar := false
        consumedRedStars := s.interactionStarsConsumed }

/-- A trait candidate as proposed by the external generator, before
sanitization (the raw input of sanitizeTraits).  A modifier value of
none stands for a non-numeric entry (parseInt yields NaN), an id of
none stands for a missing id (a fresh one is generated). -/
structure RawTrait where
  id : Option String
  name : String
  description : String
  rarity : String
  modifiers : List (AttrKey × Option Int)
  duration : Option Int
deriving DecidableEq, Repr

/-- Modifier sanitization loop of sanitizeTraits: non-numeric values
become 0, each value is clamped to the band between -20 and 20, and
zero-valued dimensions are dropped from the map. -/
def sanitizeModifiers (raw : List (AttrKey × Option Int)) : List (AttrKey × Int) :=
  raw.filterMap (fun kv =>
    let numVal := kv.2.getD 0
    let numVal := max (-20) (min 20 numVal)
    if numVal ≠ 0 then some (kv.1, numVal) else none)

/-- Embedding of one step of sanitizeTraits (services/prompts.ts):
sanitize the modifier map, validate the rarity tag against the known
set defaulting to the common tag, then re-derive rarity from the sign
pattern: purely negative modifiers with sum strictly below -15 and a
negative politics component force the CRIME tag; purely negative but
milder modifiers force the NEGATIVE tag unless the validated rarity is
already CRIME. -/
def sanitizeTrait (generatedId : String) (t : RawTrait) : Trait :=
  let sm := sanitizeModifiers t.modifiers
  let modifierValues := sm.map (fun kv => kv.2)
  let rarity0 := match rarityOfString t.rarity with
    | some r => r
    | none => TraitRarity.COMMON
  let hasPositive := modifierValues.any (fun v => decide (v > 0))
  let sumValues := modifierValues.foldl (fun a b => a + b) (0 : Int)
  let politicsMod := ((sm.lookup AttrKey.politics).getD 0)
  let finalRarity :=
    if modifierValues.length > 0 then
      if !hasPositive && decide (sumValues < -15) && decide (politicsMod < 0) then
        TraitRarity.CRIME
      else if !hasPositive && decide (sumValues < 0)
          && decide (rarity0 ≠ TraitRarity.CRIME) then
        TraitRarity.NEGATIVE
      else rarity0
    else rarity0
  { id := t.id.getD generatedId
    name := t.name
    description := t.description
    rarity := finalRarity
    modifiers := sm
    duration := t.duration }

/-- Embedding of sanitizeTraits over a proposed list; the generated ids
for id-less candidates are supplied as an argument since the source
derives them from the clock and a random suffix. -/
def sanitizeTraits (generatedId : String) (traits : List RawTrait) : List Trait :=
  traits.map (sanitizeTrait generatedId)

/-- Calendar date pair (year, month). -/
structure GameDate where
  year : Int
  month : Int
deriving DecidableEq, Repr

/-- A political faction as carried in game state (types.ts Faction,
the fields the merge engine reads). -/
structure Faction where
  name : String
  share : Int
  leaders : List String
  color : String
deriving DecidableEq, Repr

/-- Player statistics block (types.ts PlayerStats). -/
structure PlayerStats where
  birthYear : Int
  politicalStanding : Int
  health : Int
  mental : Int
  redStars : Nat
  powerPoints : Int
  currentFaction : String
  isLeader : Bool
  inventory : List String
  attributes : Attributes
  traits : List Trait
deriving DecidableEq, Repr

/-- Trait change log entry kinds recorded during a merge. -/
inductive TraitChangeType where
  | ADD
  | REMOVE
deriving DecidableEq, Repr

/-- Trait change log entry (types.ts TraitChangeLog). -/
structure TraitChangeLog where
  type : TraitChangeType
  name : String
  rarity : TraitRarity
deriving DecidableEq, Repr

/-- Per-turn resource deltas recorded in a history entry. -/
structure HistoryDeltas where
  redStars : Int
  powerPoints : Int
deriving DecidableEq, Repr

/-- Faction change record (from, to). -/
structure FactionChange where
  fromFaction : String
  toFaction : String
deriving DecidableEq, Repr

/-- History entry appended once per turn (types.ts HistoryEntry). -/
structure HistoryEntry where
  year : Int
  month : Int
  text : String
  result : RollResult
  traitChanges : List TraitChangeLog
  deltas : HistoryDeltas
  factionChange : Option FactionChange
deriving DecidableEq, Repr

/-- Canonical game state (types.ts GameState, the fields read or
written by updateGameStateFromResponse). -/
structure GameState where
  year : Int
  month : Int
  name : String
  stats : PlayerStats
  factions : List Faction
  supremeLeader : String
  supremeLeaderSlogan : String
  rulingPartySymbol : String
  isGameOver : Bool
  gameOverReason : String
  historySummary : List HistoryEntry
  turnsSinceLastCritical : Int
  designatedSuccessor : Option String
  suggestedHeirs : List String
  potentialSuccessors : List String
  lastPowerPointGrantDate : Option GameDate
deriving DecidableEq, Repr

/-- Vital stat deltas of a proposal; the power-point field defaults to
zero when absent, mirroring the falsy check in the source. -/
structure StatsDelta where
  politicalStanding : Int
  health : Int
  mental : Int
  powerPoints : Int
deriving DecidableEq, Repr

/-- Proposed full faction-roster replacement field: absent, present
but not a list, or a list of faction records. -/
inductive FactionsField where
  | absent
  | notList
  | list (fs : List Faction)
deriving DecidableEq, Repr

/-- Proposed trait update lists. -/
structure TraitsUpdate where
  add : List Trait
  removeIds : List String
deriving DecidableEq, Repr

/-- Proposed inventory update lists. -/
structure InventoryUpdate where
  add : List String
  remove : List String
deriving DecidableEq, Repr

/-- Proposed player-faction update. -/
structure PlayerFactionUpdate where
  factionName : String
  isLeader : Bool
deriving DecidableEq, Repr

/-- Proposed supreme-leader update; each field of none stands for an
absent or empty (falsy) value. -/
structure SupremeLeaderUpdate where
  name : Option String
  slogan : Option String
  symbol : Option String
deriving DecidableEq, Repr

/-- The structured narrative proposal consumed by the merge engine
(types.ts GameSceneResponse); a gameOverReason of the empty string
stands for an absent reason, matching the safeString default. -/
structure Response where
  year : Int
  month : Int
  narrative : String
  statsDelta : StatsDelta
  choices : List Choice
  isGameOver : Bool
  gameOverReason : String
  inventoryUpdate : Option InventoryUpdate
  traitsUpdate : Option TraitsUpdate
  factionsUpdate : FactionsField
  playerFactionUpdate : Option PlayerFactionUpdate
  supremeLeaderUpdate : Option SupremeLeaderUpdate
  designatedSuccessorUpdate : Option String
  suggestedHeirs : Option (List String)
  potentialSuccessors : List String
deriving DecidableEq, Repr

/-- Context of the action that produced this turn, as assembled by
handleChoice in App.tsx. -/
structure ActionContext where
  text : String
  result : RollResult
  date : GameDate
  earnedStar : Bool
  consumedRedStars : Nat
  consumedPowerPoints : Nat
  choiceId : String
deriving DecidableEq, Repr

/-- Clamp a vital to the inclusive band between 0 and 100, as applied
to each vital during the merge. -/
def clampVital (v : Int) : Int :=
  max 0 (min 100 v)

/-- Fallback on the empty string, mirroring the JavaScript
logical-or defaulting used for the game-over reason. -/
def stringOr (s fallback : String) : String :=
  if s = "" then fallback else s

/-- Canned health-death game-over reason of the merge engine. -/
def healthDeathReason : String := "你因身体崩溃，病死在革命的征途中。"

/-- Canned political-purge game-over reason of the merge engine. -/
def politicalPurgeReason : String := "你被彻底打倒，划为反革命分子，在劳改农场度过余生。"

/-- Canned mental-collapse game-over reason of the merge engine. -/
def mentalCollapseReason : String := "你无法承受巨大的精神压力，疯了。"

/-- Consecutive-turns-without-critical counter update at the start of
the merge: reset on a critical success or on use of the pity action,
otherwise incremented when an action context is present. -/
def newTurnsSinceCritical (prevState : GameState) (ctx : Option ActionContext) : Int :=
  match ctx with
  | some c =>
    if c.result = RollResult.CRITICAL_SUCCESS then 0
    else if c.choiceId = "pity_custom_action" then 0
    else prevState.turnsSinceLastCritical + 1
  | none => prevState.turnsSinceLastCritical

/-- Trait merge of the engine: removals by id first (logged REMOVE),
then each addition evicts a same-named active trait and is appended
(logged ADD). -/
def mergeTraitLists (prior : List Trait) (tu : Option TraitsUpdate) :
    List Trait × List TraitChangeLog :=
  let removeIds := match tu with
    | some u => u.removeIds
    | none => []
  let addList := match tu with
    | some u => u.add
    | none => []
  let removed := prior.filter (fun t => removeIds.contains t.id)
  let changes0 := removed.map (fun t =>
    { type := TraitChangeType.REMOVE, name := t.name, rarity := t.rarity })
  let kept := prior.filter (fun t => !(removeIds.contains t.id))
  addList.foldl
    (fun acc t =>
      let evicted := acc.1.eraseP (fun e => e.name == t.name)
      (evicted ++ [t],
       acc.2 ++ [{ type := TraitChangeType.ADD, name := t.name, rarity := t.rarity }]))
    (kept, changes0)

/-- Duration decay applied when months have elapsed: every trait with a
numeric duration loses the elapsed months, and traits at zero or below
are dropped; permanent traits are unaffected. -/
def decayTraits (monthsPassed : Int) (traits : List Trait) : List Trait :=
  if monthsPassed > 0 then
    (traits.map (fun t =>
      match t.duration with
      | some d => { t with duration := some (d - monthsPassed) }
      | none => t)).filter (fun t =>
        match t.duration with
        | some d => decide (d > 0)
        | none => true)
  else traits

/-- Embedding of updateGameStateFromResponse from App.tsx: the
deterministic merge of the prior canonical state with the narrative
proposal and the resolved action context, producing the next canonical
state. -/
def updateGameStateFromResponse (cheatMode : Bool) (response : Response)
    (prevState : GameState) (ctx : Option ActionContext) : GameState :=
  let turnsSince := newTurnsSinceCritical prevState ctx
  let monthsPassed := (response.year - prevState.year) * 12
      + (response.month - prevState.month)
  let merged := mergeTraitLists prevState.stats.traits response.traitsUpdate
  let traitChanges := merged.2
  let currentTraits := decayTraits monthsPassed merged.1
  let inv0 := prevState.stats.inventory
  let currentInventory := match response.inventoryUpdate with
    | some iu => (inv0 ++ iu.add).filter (fun i => !(iu.remove.contains i))
    | none => inv0
  let currentFactions := match response.factionsUpdate with
    | FactionsField.list fs => fs
    | _ => prevState.factions
  let currentFactionName := match response.playerFactionUpdate with
    | some pf => pf.factionName
    | none => prevState.stats.currentFaction
  let isLeader0 := match response.playerFactionUpdate with
    | some pf => pf.isLeader
    | none => prevState.stats.isLeader
  let factionChange := match response.playerFactionUpdate with
    | some pf =>
      if pf.factionName ≠ prevState.stats.currentFaction then
        some { fromFaction := prevState.stats.currentFaction
               toFaction := pf.factionName }
      else none
    | none => none
  let currentSupremeLeader := match response.supremeLeaderUpdate with
    | some u => (u.name).getD prevState.supremeLeader
    | none => prevState.supremeLeader
  let currentSlogan := match response.supremeLeaderUpdate with
    | some u => (u.slogan).getD prevState.supremeLeaderSlogan
    | none => prevState.supremeLeaderSlogan
  let currentSymbol := match response.supremeLeaderUpdate with
    | some u => (u.symbol).getD prevState.rulingPartySymbol
    | none => prevState.rulingPartySymbol
  let currentDesignatedSuccessor := match response.designatedSuccessorUpdate with
    | some d => some d
    | none => prevState.designatedSuccessor
  let currentSuggestedHeirs := match response.suggestedHeirs with
    | some hs => hs
    | none => prevState.suggestedHeirs
  let redStarDelta : Int :=
    (match ctx with
     | some c => if c.earnedStar then 1 else 0
     | none => 0)
    - (match ctx with
       | some c => (c.consumedRedStars : Int)
       | none => 0)
  let rawPowerDelta := response.statsDelta.powerPoints
  let effectivePowerDelta := if rawPowerDelta > 1 then 1 else rawPowerDelta
  let newLastGrantDate :=
    if effectivePowerDelta > 0 then
      some { year := response.year, month := response.month }
    else prevState.lastPowerPointGrantDate
  let powerPointDelta := effectivePowerDelta
    - (match ctx with
       | some c => (c.consumedPowerPoints : Int)
       | none => 0)
  let newHistory := match ctx with
    | some c =>
      prevState.historySummary ++
        [{ year := c.date.year
           month := c.date.month
           text := c.text
           result := c.result
           traitChanges := traitChanges
           deltas := { redStars := redStarDelta, powerPoints := powerPointDelta }
           factionChange := factionChange }]
    | none => prevState.historySummary
  let newRedStars := match ctx with
    | some c =>
      if c.earnedStar then min 5 (prevState.stats.redStars + 1)
      else prevState.stats.redStars
    | none => prevState.stats.redStars
  let newPowerPoints0 := prevState.stats.powerPoints + effectivePowerDelta
  let newPowerPoints := match ctx with
    | some c =>
      if c.consumedPowerPoints ≠ 0 then
        max 0 (newPowerPoints0 - (c.consumedPowerPoints : Int))
      else newPowerPoints0
    | none => newPowerPoints0
  let newRedStars := if cheatMode then 99 else newRedStars
  let isLeader1 :=
    if !isLeader0 then
      match currentFactions.find? (fun f => f.name == currentFactionName) with
      | some f =>
        if f.leaders.any (fun leaderName => strIncludes leaderName prevState.name) then
          true
        else isLeader0
      | none => isLeader0
    else isLeader0
  let newStats : PlayerStats :=
    { birthYear := prevState.stats.birthYear
      politicalStanding :=
        clampVital (prevState.stats.politicalStanding
          + response.statsDelta.politicalStanding)
      health := clampVital (prevState.stats.health + response.statsDelta.health)
      mental := clampVital (prevState.stats.mental + response.statsDelta.mental)
      redStars := newRedStars
      powerPoints := newPowerPoints
      currentFaction := currentFactionName
      isLeader := isLeader1
      inventory := currentInventory
      attributes := prevState.stats.attributes
      traits := currentTraits }
  let isGameOver0 := response.isGameOver
  let gameOverReason0 := response.gameOverReason
  let isGameOver :=
    if newStats.health ≤ 0 then true
    else if newStats.politicalStanding ≤ 0 then true
    else if newStats.mental ≤ 0 then true
    else isGameOver0
  let gameOverReason :=
    if newStats.health ≤ 0 then stringOr gameOverReason0 healthDeathReason
    else if newStats.politicalStanding ≤ 0 then
      stringOr gameOverReason0 politicalPurgeReason
    else if newStats.mental ≤ 0 then stringOr gameOverReason0 mentalCollapseReason
    else gameOverReason0
  { year := response.year
    month := response.month
    name := prevState.name
    stats := newStats
    factions := currentFactions
    supremeLeader := currentSupremeLeader
    supremeLeaderSlogan := currentSlogan
    rulingPartySymbol := currentSymbol
    isGameOver := isGameOver
    gameOverReason := gameOverReason
    historySummary := newHistory
    turnsSinceLastCritical := turnsSince
    designatedSuccessor := currentDesignatedSuccessor
    suggestedHeirs := currentSuggestedHeirs
    potentialSuccessors := response.potentialSuccessors
    lastPowerPointGrantDate := newLastGrantDate }

/-- Pity-choice injection performed alongside the merge: once the
counter of turns without a critical success reaches 10 and the game is
not over, a free zero-difficulty custom action is appended to the
offered choices. -/
def injectPityChoice (prevState : GameState) (ctx : Option ActionContext)
    (choices : List Choice) : List Choice :=
  if newTurnsSinceCritical prevState ctx ≥ 10 && !prevState.isGameOver then
    choices ++ [{ id := "pity_custom_action"
                  text := "【厚积薄发】你的长期隐忍迎来了转机..."
                  difficulty := some 0
                  requiredAttribute := none }]
  else choices

/-- The power-point constraint makeTurn (services/engine.ts) embeds in
the request to the narrative generator. -/
inductive PowerPointInstruction where
  | forbidGainNotLeader
  | forbidGainCooldown (monthsSinceGrant : Int)
  | allowGrant
deriving DecidableEq, Repr

/-- Months elapsed since the last recorded power-point grant, as
computed by makeTurn; with no recorded grant the source uses 999. -/
def monthsSinceGrant (currentState : GameState) : Int :=
  match currentState.lastPowerPointGrantDate with
  | some lastGrant =>
    (currentState.year - lastGrant.year) * 12
      + (currentState.month - lastGrant.month)
  | none => 999

/-- Embedding of the power-point constraint selection of makeTurn:
a non-leader must not be awarded power points; a leader inside the
3-month cooldown must not be awarded power points; otherwise a grant
of at most +1 may be awarded. -/
def powerPointInstruction (currentState : GameState) : PowerPointInstruction :=
  if !currentState.stats.isLeader then PowerPointInstruction.forbidGainNotLeader
  else if monthsSinceGrant currentState < 3 then
    PowerPointInstruction.forbidGainCooldown (monthsSinceGrant currentState)
  else PowerPointInstruction.allowGrant

/-- An all-zero attribute set for concrete instantiations. -/
def attrsZero : Attributes :=
  { physique := 0, intelligence := 0, spirit := 0, agility := 0
    charisma := 0, politics := 0 }

/-- An attribute set with effective politics 25, used to exercise the
attribute-dominance branch of the threshold computation. -/
def attrsPol25 : Attributes :=
  { physique := 0, intelligence := 0, spirit := 0, agility := 0
    charisma := 0, politics := 25 }

/-- A concrete politics-governed choice with base difficulty 40. -/
def choicePol40 : Choice :=
  { id := "c1", text := "表态支持", difficulty := some 40
    requiredAttribute := some "politics" }

/-- A concrete attribute-free choice with base difficulty 7, whose
effective threshold is 7 (inside the clamp band). -/
def choiceDiff7 : Choice :=
  { id := "c2", text := "低调行事", difficulty := some 7
    requiredAttribute := none }

/-- A concrete base stats block for merge instantiations. -/
def statsBase : PlayerStats :=
  { birthYear := 1950, politicalStanding := 50, health := 50, mental := 50
    redStars := 2, powerPoints := 0, currentFaction := "造反派"
    isLeader := false, inventory := [], attributes := attrsZero, traits := [] }

/-- A concrete base game state for merge instantiations. -/
def stateBase : GameState :=
  { year := 1966, month := 5, name := "王小明", stats := statsBase
    factions := [], supremeLeader := "毛泽东", supremeLeaderSlogan := ""
    rulingPartySymbol := "", isGameOver := false, gameOverReason := ""
    historySummary := [], turnsSinceLastCritical := 0
    designatedSuccessor := none, suggestedHeirs := []
    potentialSuccessors := [], lastPowerPointGrantDate := none }

/-- The all-zero stat delta. -/
def deltaZero : StatsDelta :=
  { politicalStanding := 0, health := 0, mental := 0, powerPoints := 0 }

/-- A concrete no-update proposal advancing the calendar one month. -/
def responseBase : Response :=
  { year := 1966, month := 6, narrative := "平静的一个月。", statsDelta := deltaZero
    choices := [], isGameOver := false, gameOverReason := ""
    inventoryUpdate := none, traitsUpdate := none
    factionsUpdate := FactionsField.absent, playerFactionUpdate := none
    supremeLeaderUpdate := none, designatedSuccessorUpdate := none
    suggestedHeirs := none, potentialSuccessors := [] }

/-- A concrete action context for an ordinary resolved action. -/
def ctxBase : ActionContext :=
  { text := "表态支持", result := RollResult.SUCCESS, date := { year := 1966, month := 5 }
    earnedStar := false, consumedRedStars := 0, consumedPowerPoints := 0
    choiceId := "c1" }

/-- The critical floor of getRollStats, written out: 95 lowered by the
overflow when the raw threshold is below 5, floored at 20. -/
theorem getRollStats_crit_eq (attrs : Attributes) (choice : Choice) :
    (getRollStats attrs choice).critThreshold
      = max 20 (95 - (if (getRollStats attrs choice).rawThreshold < 5 then
          5 - (getRollStats attrs choice).rawThreshold else 0)) := rfl

/-- The success threshold of getRollStats, written out: the raw
threshold clamped to the band between 5 and 95. -/
theorem getRollStats_eff_eq (attrs : Attributes) (choice : Choice) :
    (getRollStats attrs choice).effectiveThreshold
      = max 5 (min 95 (getRollStats attrs choice).rawThreshold) := rfl

/-- A draw at or above a critical floor of at least 20 classifies as a
critical success: the critical-failure band cannot intercept it. -/
theorem classifyRoll_crit (roll t c : Int) (h1 : 20 ≤ c) (h2 : c ≤ roll) :
    classifyRoll roll t c = RollResult.CRITICAL_SUCCESS := by
  unfold classifyRoll
  rw [if_neg (by omega), if_pos (by omega)]

/-- Vital clamping stays at or above zero. -/
theorem clampVital_nonneg (v : Int) : 0 ≤ clampVital v := by
  unfold clampVital
  omega

/-- Vital clamping stays at or below one hundred. -/
theorem clampVital_le (v : Int) : clampVital v ≤ 100 := by
  unfold clampVital
  omega

/-- Claim C1: whenever the raw unclamped threshold falls below 5 the
critical floor is 95 lowered by the overflow 5 minus raw, floored at
20; the critical floor always lies between 20 and 95; and a draw at or
above the critical floor classifies as CRITICAL_SUCCESS. -/
theorem C1_critical_floor_overflow (attrs : Attributes) (choice : Choice) :
    ((getRollStats attrs choice).rawThreshold < 5 →
      (getRollStats attrs choice).critThreshold
        = max 20 (95 - (5 - (getRollStats attrs choice).rawThreshold)))
    ∧ 20 ≤ (getRollStats attrs choice).critThreshold
    ∧ (getRollStats attrs choice).critThreshold ≤ 95
    ∧ (∀ roll : Int, (getRollStats attrs choice).critThreshold ≤ roll →
        classifyRoll roll (getRollStats attrs choice).effectiveThreshold
          (getRollStats attrs choice).critThreshold
          = RollResult.CRITICAL_SUCCESS) := by
  have hc := getRollStats_crit_eq attrs choice
  have h20 : 20 ≤ (getRollStats attrs choice).critThreshold := by
    rw [hc]; omega
  refine ⟨?_, h20, ?_, ?_⟩
  · intro h
    rw [hc, if_pos h]
  · rw [hc]
    split <;> omega
  · intro roll hr
    exact classifyRoll_crit roll _ _ h20 hr

/-- Claim C1 witness: concrete instantiation at base difficulty 40 and
effective politics 25, where the raw threshold is minus 10, the
critical floor is 80, and a draw of 80 is a critical success. -/
theorem C1_witness :
    (getRollStats attrsPol25 choicePol40).rawThreshold < 5
    ∧ (getRollStats attrsPol25 choicePol40).critThreshold
        = max 20 (95 - (5 - (getRollStats attrsPol25 choicePol40).rawThreshold))
    ∧ (getRollStats attrsPol25 choicePol40).critThreshold ≤ (80 : Int)
    ∧ classifyRoll 80 (getRollStats attrsPol25 choicePol40).effectiveThreshold
        (getRollStats attrsPol25 choicePol40).critThreshold
        = RollResult.CRITICAL_SUCCESS :=
  ⟨by decide,
   (C1_critical_floor_overflow attrsPol25 choicePol40).1 (by decide),
   by decide,
   (C1_critical_floor_overflow attrsPol25 choicePol40).2.2.2 80 (by decide)⟩

/-- Claim C9: when the choice declares a base difficulty and a
governing attribute that normalizes to an attribute key, the success
threshold is the base difficulty minus twice the effective governing
attribute, clamped to the band between 5 and 95. -/
theorem C9_threshold_formula (attrs : Attributes) (choice : Choice) (d : Int)
    (k : AttrKey) (h1 : choice.difficulty = some d)
    (h2 : normalizeAttrKey choice.requiredAttribute = some k) :
    (getRollStats attrs choice).effectiveThreshold
      = max 5 (min 95 (d - getAttr attrs k * 2))
    ∧ 5 ≤ (getRollStats attrs choice).effectiveThreshold
    ∧ (getRollStats attrs choice).effectiveThreshold ≤ 95 := by
  have hraw : (getRollStats attrs choice).rawThreshold = d - getAttr attrs k * 2 := by
    simp [getRollStats, h1, h2]
  have heff := getRollStats_eff_eq attrs choice
  rw [heff, hraw]
  refine ⟨rfl, ?_, ?_⟩ <;> omega

/-- Claim C9 witness: concrete instantiation at base difficulty 40 and
effective politics 25, giving a threshold clamped up to 5. -/
theorem C9_witness :
    choicePol40.difficulty = some 40
    ∧ normalizeAttrKey choicePol40.requiredAttribute = some AttrKey.politics
    ∧ (getRollStats attrsPol25 choicePol40).effectiveThreshold
        = max 5 (min 95 (40 - getAttr attrsPol25 AttrKey.politics * 2)) :=
  ⟨rfl, by decide,
   (C9_threshold_formula attrsPol25 choicePol40 40 AttrKey.politics rfl (by decide)).1⟩
/-- Claim C5: after every turn merge each of the three vitals equals
the prior vital plus the proposal delta clamped to the inclusive band
between 0 and 100, so every post-merge vital lies in that band. -/
theorem C5_vitals_clamped (cheatMode : Bool) (response : Response)
    (prevState : GameState) (ctx : Option ActionContext) :
    ((updateGameStateFromResponse cheatMode response prevState ctx).stats.politicalStanding
       = clampVital (prevState.stats.politicalStanding
           + response.statsDelta.politicalStanding))
    ∧ ((updateGameStateFromResponse cheatMode response prevState ctx).stats.health
       = clampVital (prevState.stats.health + response.statsDelta.health))
    ∧ ((updateGameStateFromResponse cheatMode response prevState ctx).stats.mental
       = clampVital (prevState.stats.mental + response.statsDelta.mental))
    ∧ 0 ≤ (updateGameStateFromResponse cheatMode response prevState ctx).stats.politicalStanding
    ∧ (updateGameStateFromResponse cheatMode response prevState ctx).stats.politicalStanding ≤ 100
    ∧ 0 ≤ (updateGameStateFromResponse cheatMode response prevState ctx).stats.health
    ∧ (updateGameStateFromResponse cheatMode response prevState ctx).stats.health ≤ 100
    ∧ 0 ≤ (updateGameStateFromResponse cheatMode response prevState ctx).stats.mental
    ∧ (updateGameStateFromResponse cheatMode response prevState ctx).stats.mental ≤ 100 :=
  ⟨rfl, rfl, rfl,
   clampVital_nonneg _, clampVital_le _,
   clampVital_nonneg _, clampVital_le _,
   clampVital_nonneg _, clampVital_le _⟩

/-- Claim C6: a proposed roster that is a valid list replaces the
roster exactly; a proposal whose roster field is absent or present but
not a list leaves the prior roster unchanged. -/
theorem C6_faction_roster (cheatMode : Bool) (response : Response)
    (prevState : GameState) (ctx : Option ActionContext) :
    (∀ fs : List Faction, response.factionsUpdate = FactionsField.list fs →
      (updateGameStateFromResponse cheatMode response prevState ctx).factions = fs)
    ∧ (response.factionsUpdate = FactionsField.notList →
      (updateGameStateFromResponse cheatMode response prevState ctx).factions
        = prevState.factions)
    ∧ (response.factionsUpdate = FactionsField.absent →
      (updateGameStateFromResponse cheatMode response prevState ctx).factions
        = prevState.factions) := by
  have hbase : (updateGameStateFromResponse cheatMode response prevState ctx).factions
      = (match response.factionsUpdate with
         | FactionsField.list fs => fs
         | _ => prevState.factions) := rfl
  refine ⟨?_, ?_, ?_⟩
  · intro fs h
    rw [hbase, h]
  · intro h
    rw [hbase, h]
  · intro h
    rw [hbase, h]

/-- A concrete faction record for roster instantiations. -/
def factionA : Faction :=
  { name := "造反派", share := 60, leaders := ["张三"], color := "#b91c1c" }

/-- A concrete proposal carrying a valid one-faction roster. -/
def responseRoster : Response :=
  { responseBase with factionsUpdate := FactionsField.list [factionA] }

/-- A concrete proposal whose roster field is present but not a list. -/
def responseNotList : Response :=
  { responseBase with factionsUpdate := FactionsField.notList }

/-- Claim C6 witness: the concrete one-faction roster is accepted
verbatim, and the concrete not-a-list roster leaves the prior roster
unchanged. -/
theorem C6_witness :
    responseRoster.factionsUpdate = FactionsField.list [factionA]
    ∧ (updateGameStateFromResponse false responseRoster stateBase
        (some ctxBase)).factions = [factionA]
    ∧ responseNotList.factionsUpdate = FactionsField.notList
    ∧ (updateGameStateFromResponse false responseNotList stateBase
        (some ctxBase)).factions = stateBase.factions :=
  ⟨rfl,
   (C6_faction_roster false responseRoster stateBase (some ctxBase)).1 [factionA] rfl,
   rfl,
   (C6_faction_roster false responseNotList stateBase (some ctxBase)).2.1 rfl⟩

/-- Claim C8: a post-merge vital at zero forces game-over; the canned
reason follows the fixed priority health death, then political purge,
then mental collapse, and is used only when the proposal supplied no
reason (the empty string). -/
theorem C8_game_over_priority (cheatMode : Bool) (response : Response)
    (prevState : GameState) (ctx : Option ActionContext) :
    (((updateGameStateFromResponse cheatMode response prevState ctx).stats.health = 0) →
      (updateGameStateFromResponse cheatMode response prevState ctx).isGameOver = true
      ∧ (updateGameStateFromResponse cheatMode response prevState ctx).gameOverReason
          = stringOr response.gameOverReason healthDeathReason)
    ∧ (((updateGameStateFromResponse cheatMode response prevState ctx).stats.health ≠ 0) →
       ((updateGameStateFromResponse cheatMode response prevState ctx).stats.politicalStanding = 0) →
      (updateGameStateFromResponse cheatMode response prevState ctx).isGameOver = true
      ∧ (updateGameStateFromResponse cheatMode response prevState ctx).gameOverReason
          = stringOr response.gameOverReason politicalPurgeReason)
    ∧ (((updateGameStateFromResponse cheatMode response prevState ctx).stats.health ≠ 0) →
       ((updateGameStateFromResponse cheatMode response prevState ctx).stats.politicalStanding ≠ 0) →
       ((updateGameStateFromResponse cheatMode response prevState ctx).stats.mental = 0) →
      (updateGameStateFromResponse cheatMode response prevState ctx).isGameOver = true
      ∧ (updateGameStateFromResponse cheatMode response prevState ctx).gameOverReason
          = stringOr response.gameOverReason mentalCollapseReason) := by
  have hH : (updateGameStateFromResponse cheatMode response prevState ctx).stats.health
      = clampVital (prevState.stats.health + response.statsDelta.health) := rfl
  have hP : (updateGameStateFromResponse cheatMode response prevState ctx).stats.politicalStanding
      = clampVital (prevState.stats.politicalStanding
          + response.statsDelta.politicalStanding) := rfl
  have hM : (updateGameStateFromResponse cheatMode response prevState ctx).stats.mental
      = clampVital (prevState.stats.mental + response.statsDelta.mental) := rfl
  have hGO : (updateGameStateFromResponse cheatMode response prevState ctx).isGameOver
      = (if clampVital (prevState.stats.health + response.statsDelta.health) ≤ 0 then true
         else if clampVital (prevState.stats.politicalStanding
             + response.statsDelta.politicalStanding) ≤ 0 then true
         else if clampVital (prevState.stats.mental + response.statsDelta.mental) ≤ 0 then true
         else response.isGameOver) := rfl
  have hR : (updateGameStateFromResponse cheatMode response prevState ctx).gameOverReason
      = (if clampVital (prevState.stats.health + response.statsDelta.health) ≤ 0 then
           stringOr response.gameOverReason healthDeathReason
         else if clampVital (prevState.stats.politicalStanding
             + response.statsDelta.politicalStanding) ≤ 0 then
           stringOr response.gameOverReason politicalPurgeReason
         else if clampVital (prevState.stats.mental + response.statsDelta.mental) ≤ 0 then
           stringOr response.gameOverReason mentalCollapseReason
         else response.gameOverReason) := rfl
  have hHnn := clampVital_nonneg (prevState.stats.health + response.statsDelta.health)
  have hPnn := clampVital_nonneg (prevState.stats.politicalStanding
      + response.statsDelta.politicalStanding)
  have hMnn := clampVital_nonneg (prevState.stats.mental + response.statsDelta.mental)
  refine ⟨?_, ?_, ?_⟩
  · intro h
    rw [hH] at h
    constructor
    · rw [hGO, if_pos (by omega)]
    · rw [hR, if_pos (by omega)]
  · intro h hp
    rw [hH] at h
    rw [hP] at hp
    constructor
    · rw [hGO, if_neg (by omega), if_pos (by omega)]
    · rw [hR, if_neg (by omega), if_pos (by omega)]
  · intro h hp hm
    rw [hH] at h
    rw [hP] at hp
    rw [hM] at hm
    constructor
    · rw [hGO, if_neg (by omega), if_neg (by omega), if_pos (by omega)]
    · rw [hR, if_neg (by omega), if_neg (by omega), if_pos (by omega)]

/-- A concrete proposal whose deltas drive both health and political
standing to zero in the same turn. -/
def responseLethal : Response :=
  { responseBase with
    statsDelta := { politicalStanding := -50, health := -50, mental := 0, powerPoints := 0 } }

/-- Claim C8 witness: with health and political standing both reaching
zero in the same merge, game-over is forced and the health-death
reason is reported. -/
theorem C8_witness :
    (updateGameStateFromResponse false responseLethal stateBase (some ctxBase)).stats.health = 0
    ∧ (updateGameStateFromResponse false responseLethal stateBase
        (some ctxBase)).stats.politicalStanding = 0
    ∧ (updateGameStateFromResponse false responseLethal stateBase (some ctxBase)).isGameOver = true
    ∧ (updateGameStateFromResponse false responseLethal stateBase (some ctxBase)).gameOverReason
        = stringOr responseLethal.gameOverReason healthDeathReason :=
  ⟨by decide, by decide,
   ((C8_game_over_priority false responseLethal stateBase (some ctxBase)).1 (by decide)).1,
   ((C8_game_over_priority false responseLethal stateBase (some ctxBase)).1 (by decide)).2⟩

/-- A concrete proposal granting one power point. -/
def responseGain1 : Response :=
  { responseBase with
    statsDelta := { politicalStanding := 0, health := 0, mental := 0, powerPoints := 1 } }

/-- Claim C3 counterexample: the merge applies a proposed gain of one
power point even though the player is not a faction leader, so the
claimed rejection does not happen in the merge. -/
theorem C3_counterexample :
    stateBase.stats.isLeader = false
    ∧ (updateGameStateFromResponse false responseGain1 stateBase
        (some ctxBase)).stats.powerPoints ≠ stateBase.stats.powerPoints := by
  constructor
  · rfl
  · decide

/-- Claim C3 amended: the merge itself caps any proposed gain at plus
one and records the grant date of an applied gain, while the
leader-only and three-month-cooldown rejection of gains is enforced as
the constraint makeTurn selects for the generation request: a
non-leader or a leader inside the cooldown gets a forbid-gain
constraint. -/
theorem C3_power_grant_policy :
    (∀ (cheatMode : Bool) (response : Response) (prevState : GameState)
        (ctx : Option ActionContext),
      0 ≤ prevState.stats.powerPoints →
      (updateGameStateFromResponse cheatMode response prevState ctx).stats.powerPoints
        ≤ prevState.stats.powerPoints + 1)
    ∧ (∀ (cheatMode : Bool) (response : Response) (prevState : GameState)
        (ctx : Option ActionContext),
      0 < response.statsDelta.powerPoints →
      (updateGameStateFromResponse cheatMode response prevState ctx).lastPowerPointGrantDate
        = some { year := response.year, month := response.month })
    ∧ (∀ currentState : GameState, currentState.stats.isLeader = false →
      powerPointInstruction currentState = PowerPointInstruction.forbidGainNotLeader)
    ∧ (∀ currentState : GameState, currentState.stats.isLeader = true →
      monthsSinceGrant currentState < 3 →
      powerPointInstruction currentState
        = PowerPointInstruction.forbidGainCooldown (monthsSinceGrant currentState)) := by
  refine ⟨?_, ?_, ?_, ?_⟩
  · intro cheatMode response prevState ctx hp
    have hdef : (updateGameStateFromResponse cheatMode response prevState ctx).stats.powerPoints
        = (match ctx with
           | some c =>
             if c.consumedPowerPoints ≠ 0 then
               max 0 ((prevState.stats.powerPoints
                 + (if response.statsDelta.powerPoints > 1 then 1
                    else response.statsDelta.powerPoints))
                 - (c.consumedPowerPoints : Int))
             else prevState.stats.powerPoints
               + (if response.statsDelta.powerPoints > 1 then 1
                  else response.statsDelta.powerPoints)
           | none => prevState.stats.powerPoints
               + (if response.statsDelta.powerPoints > 1 then 1
                  else response.statsDelta.powerPoints)) := rfl
    rw [hdef]
    cases ctx with
    | none => split <;> omega
    | some c =>
      have hcast : (0:Int) ≤ (c.consumedPowerPoints : Int) := Int.ofNat_nonneg _
      split
      · split <;> omega
      · split <;> omega
  · intro cheatMode response prevState ctx hg
    have hdef : (updateGameStateFromResponse cheatMode response prevState ctx).lastPowerPointGrantDate
        = (if (if response.statsDelta.powerPoints > 1 then 1
               else response.statsDelta.powerPoints) > 0 then
             some { year := response.year, month := response.month }
           else prevState.lastPowerPointGrantDate) := rfl
    rw [hdef, if_pos (by split <;> omega)]
  · intro currentState h
    unfold powerPointInstruction
    rw [h]
    simp
  · intro currentState h hm
    unfold powerPointInstruction
    rw [h]
    simp only [Bool.not_true]
    rw [if_neg (by simp), if_pos hm]

/-- A concrete faction-leader state with an established grant date one
month earlier and one power point. -/
def stateLeaderCooldown : GameState :=
  { stateBase with
    stats := { statsBase with isLeader := true, powerPoints := 1 }
    lastPowerPointGrantDate := some { year := 1966, month := 4 } }

/-- Claim C3 witness: concrete instantiations of the amended rules:
the cap bound at the base state, the grant-date update for the
concrete gain proposal, the forbid constraint for the non-leader base
state, and the cooldown constraint for a leader granted one month ago. -/
theorem C3_witness :
    (updateGameStateFromResponse false responseGain1 stateBase
        (some ctxBase)).stats.powerPoints ≤ stateBase.stats.powerPoints + 1
    ∧ (updateGameStateFromResponse false responseGain1 stateBase
        (some ctxBase)).lastPowerPointGrantDate
        = some { year := responseGain1.year, month := responseGain1.month }
    ∧ powerPointInstruction stateBase = PowerPointInstruction.forbidGainNotLeader
    ∧ powerPointInstruction stateLeaderCooldown
        = PowerPointInstruction.forbidGainCooldown (monthsSinceGrant stateLeaderCooldown) :=
  ⟨(C3_power_grant_policy.1 false responseGain1 stateBase (some ctxBase)) (by decide),
   (C3_power_grant_policy.2.1 false responseGain1 stateBase (some ctxBase)) (by decide),
   C3_power_grant_policy.2.2.1 stateBase (by decide),
   C3_power_grant_policy.2.2.2 stateLeaderCooldown (by decide) (by decide)⟩

/-- A concrete proposal draining five power points. -/
def responseDrain5 : Response :=
  { responseBase with
    statsDelta := { politicalStanding := 0, health := 0, mental := 0, powerPoints := -5 } }

/-- A concrete state holding two power points. -/
def statePower2 : GameState :=
  { stateBase with stats := { statsBase with powerPoints := 2 } }

/-- Claim C4 counterexample: a proposed delta of minus five on a
balance of two leaves a negative power-point balance after the merge,
because the zero floor is applied only on the spend path. -/
theorem C4_counterexample :
    (updateGameStateFromResponse false responseDrain5 statePower2
        (some ctxBase)).stats.powerPoints < 0 := by decide

/-- Claim C4 amended: whenever the resolved action spent power points,
the post-merge power-point balance is floored at zero. -/
theorem C4_power_floor_on_spend (cheatMode : Bool) (response : Response)
    (prevState : GameState) (c : ActionContext)
    (h : c.consumedPowerPoints ≠ 0) :
    0 ≤ (updateGameStateFromResponse cheatMode response prevState
        (some c)).stats.powerPoints := by
  have hdef : (updateGameStateFromResponse cheatMode response prevState
        (some c)).stats.powerPoints
      = (if c.consumedPowerPoints ≠ 0 then
           max 0 ((prevState.stats.powerPoints
             + (if response.statsDelta.powerPoints > 1 then 1
                else response.statsDelta.powerPoints))
             - (c.consumedPowerPoints : Int))
         else prevState.stats.powerPoints
           + (if response.statsDelta.powerPoints > 1 then 1
              else response.statsDelta.powerPoints)) := rfl
  rw [hdef, if_pos h]
  exact le_max_left 0 _

/-- A concrete action context that spent one power point. -/
def ctxSpend1 : ActionContext :=
  { ctxBase with consumedPowerPoints := 1, choiceId := "special_manipulate_scales" }

/-- Claim C4 witness: concrete instantiation of the amended floor rule
for a five-point drain combined with a one-point spend. -/
theorem C4_witness :
    ctxSpend1.consumedPowerPoints ≠ 0
    ∧ 0 ≤ (updateGameStateFromResponse false responseDrain5 statePower2
        (some ctxSpend1)).stats.powerPoints :=
  ⟨by decide,
   C4_power_floor_on_spend false responseDrain5 statePower2 ctxSpend1 (by decide)⟩


/-- A concrete session opened on the difficulty-7 choice with two red
stars: its success threshold is 7. -/
def sessionDiff7 : RollSession := startRoll attrsZero choiceDiff7 2

/-- Claim C2 counterexample: an accepted reroll at threshold 7 re-draws
against threshold 5, not against 7 minus 5, because the reduction is
clamped at the minimum threshold of 5. -/
theorem C2_counterexample :
    (confirmReroll sessionDiff7).calculatedThreshold
      ≠ sessionDiff7.calculatedThreshold - 5 := by decide

/-- Claim C2 amended: an accepted reroll with at least one red star
consumes one red star, adds one to the interaction consumption, keeps
the critical floor, and lowers the threshold by 5 clamped to a minimum
of 5; concretely, a failed check at threshold 50 with one accepted
reroll re-draws at threshold 45, and after one accepted and one
declined reroll the reported aggregate consumption is 1 with the
second FAILURE as the final outcome. -/
theorem C2_reroll_step_and_aggregate :
    (∀ s : RollSession, s.redStars ≠ 0 →
      confirmReroll s
        = { calculatedThreshold := max 5 (s.calculatedThreshold - 5)
            activeCritThreshold := s.activeCritThreshold
            interactionStarsConsumed := s.interactionStarsConsumed + 1
            redStars := s.redStars - 1 })
    ∧ (confirmReroll
        { calculatedThreshold := 50, activeCritThreshold := 95
          interactionStarsConsumed := 0, redStars := 2 }).calculatedThreshold = 45
    ∧ resolveInteraction
        { calculatedThreshold := 50, activeCritThreshold := 95
          interactionStarsConsumed := 0, redStars := 2 }
        30 [(true, 20), (false, 0)]
        = { result := RollResult.FAILURE, earnStar := false, consumedRedStars := 1 } := by
  refine ⟨?_, by decide, by decide⟩
  intro s h
  unfold confirmReroll
  rw [if_neg h]

/-- Claim C2 witness: concrete instantiation of the amended reroll
step at the threshold-50 session with two red stars. -/
theorem C2_witness :
    ({ calculatedThreshold := 50, activeCritThreshold := 95
       interactionStarsConsumed := 0, redStars := 2 } : RollSession).redStars ≠ 0
    ∧ confirmReroll
        { calculatedThreshold := 50, activeCritThreshold := 95
          interactionStarsConsumed := 0, redStars := 2 }
        = { calculatedThreshold := 45, activeCritThreshold := 95
            interactionStarsConsumed := 1, redStars := 1 } :=
  ⟨by decide,
   (C2_reroll_step_and_aggregate.1
     { calculatedThreshold := 50, activeCritThreshold := 95
       interactionStarsConsumed := 0, redStars := 2 } (by decide)).trans (by decide)⟩

/-- A concrete mild purely-negative trait candidate proposed with the
CRIME tag. -/
def rawTraitMildCrime : RawTrait :=
  { id := none, name := "小过失", description := "一次不大的过失。"
    rarity := "罪名", modifiers := [(AttrKey.charisma, some (-1))], duration := none }

/-- Claim C7 counterexample: a trait whose sanitized modifiers are
strictly negative but milder than the severity threshold keeps the
proposed CRIME tag instead of being forced to NEGATIVE, so the claimed
unconditional re-derivation fails. -/
theorem C7_counterexample :
    (sanitizeTrait "generated" rawTraitMildCrime).rarity ≠ TraitRarity.NEGATIVE
    ∧ (sanitizeTrait "generated" rawTraitMildCrime).rarity = TraitRarity.CRIME := by
  constructor
  · decide
  · decide

/-- Claim C7 amended: with nonempty sanitized modifiers, no positive
value, sum strictly below minus 15 and a negative politics component
the rarity is forced to CRIME; with no positive value, negative sum,
outside the CRIME condition and a validated rarity other than CRIME
the rarity is forced to NEGATIVE (a proposed valid CRIME tag is kept);
and an unknown rarity tag with a positive modifier present defaults to
COMMON. -/
theorem C7_rarity_rules (gid : String) (t : RawTrait) :
    ((((sanitizeModifiers t.modifiers).map (fun kv => kv.2)).length > 0) →
     ((((sanitizeModifiers t.modifiers).map (fun kv => kv.2)).any
        (fun v => decide (v > 0))) = false) →
     ((((sanitizeModifiers t.modifiers).map (fun kv => kv.2)).foldl
        (fun a b => a + b) (0:Int)) < -15) →
     ((((sanitizeModifiers t.modifiers).lookup AttrKey.politics).getD 0) < 0) →
     (sanitizeTrait gid t).rarity = TraitRarity.CRIME)
    ∧ (((((sanitizeModifiers t.modifiers).map (fun kv => kv.2)).length > 0)) →
     ((((sanitizeModifiers t.modifiers).map (fun kv => kv.2)).any
        (fun v => decide (v > 0))) = false) →
     ((((sanitizeModifiers t.modifiers).map (fun kv => kv.2)).foldl
        (fun a b => a + b) (0:Int)) < 0) →
     (¬(((((sanitizeModifiers t.modifiers).map (fun kv => kv.2)).foldl
        (fun a b => a + b) (0:Int)) < -15)
        ∧ ((((sanitizeModifiers t.modifiers).lookup AttrKey.politics).getD 0) < 0))) →
     ((match rarityOfString t.rarity with
       | some r => r
       | none => TraitRarity.COMMON) ≠ TraitRarity.CRIME) →
     (sanitizeTrait gid t).rarity = TraitRarity.NEGATIVE)
    ∧ ((rarityOfString t.rarity = none) →
     ((((sanitizeModifiers t.modifiers).map (fun kv => kv.2)).any
        (fun v => decide (v > 0))) = true) →
     (sanitizeTrait gid t).rarity = TraitRarity.COMMON) := by
  have hdef : (sanitizeTrait gid t).rarity
      = (if (((sanitizeModifiers t.modifiers).map (fun kv => kv.2)).length > 0) then
           if !(((sanitizeModifiers t.modifiers).map (fun kv => kv.2)).any
                (fun v => decide (v > 0)))
               && decide ((((sanitizeModifiers t.modifiers).map (fun kv => kv.2)).foldl
                  (fun a b => a + b) (0:Int)) < -15)
               && decide ((((sanitizeModifiers t.modifiers).lookup
                  AttrKey.politics).getD 0) < 0) then
             TraitRarity.CRIME
           else if !(((sanitizeModifiers t.modifiers).map (fun kv => kv.2)).any
                (fun v => decide (v > 0)))
               && decide ((((sanitizeModifiers t.modifiers).map (fun kv => kv.2)).foldl
                  (fun a b => a + b) (0:Int)) < 0)
               && decide ((match rarityOfString t.rarity with
                   | some r => r
                   | none => TraitRarity.COMMON) ≠ TraitRarity.CRIME) then
             TraitRarity.NEGATIVE
           else (match rarityOfString t.rarity with
                 | some r => r
                 | none => TraitRarity.COMMON)
         else (match rarityOfString t.rarity with
               | some r => r
               | none => TraitRarity.COMMON)) := rfl
  refine ⟨?_, ?_, ?_⟩
  · intro hlen hpos hsum hpol
    rw [hdef, if_pos hlen, if_pos (by simp [hpos, hsum, hpol])]
  · intro hlen hpos hsum hnot hrar
    rw [hdef, if_pos hlen,
      if_neg (by simp only [hpos, Bool.not_false, Bool.true_and, Bool.and_eq_true,
        decide_eq_true_eq]; exact fun hc => hnot ⟨hc.1, hc.2⟩),
      if_pos (by simp [hpos, hsum, hrar])]
  · intro hunk hpos
    by_cases hl : (((sanitizeModifiers t.modifiers).map (fun kv => kv.2)).length > 0)
    · rw [hdef, if_pos hl, if_neg (by simp [hpos]), if_neg (by simp [hpos]), hunk]
    · rw [hdef, if_neg hl, hunk]

/-- A concrete severe purely-negative trait candidate: political minus
12 and charisma minus 6 proposed with the LEGENDARY tag. -/
def rawTraitSevere : RawTrait :=
  { id := none, name := "现行反革命", description := "被定为现行反革命分子。"
    rarity := "独特"
    modifiers := [(AttrKey.politics, some (-12)), (AttrKey.charisma, some (-6))]
    duration := none }

/-- A concrete mild purely-negative trait candidate with an ordinary
valid tag. -/
def rawTraitMild : RawTrait :=
  { id := none, name := "口吃", description := "说话有些结巴。"
    rarity := "普通", modifiers := [(AttrKey.charisma, some (-1))], duration := none }

/-- A concrete positive trait candidate with an unknown rarity tag. -/
def rawTraitUnknown : RawTrait :=
  { id := none, name := "好字", description := "写得一手好字。"
    rarity := "稀you", modifiers := [(AttrKey.politics, some 1)], duration := none }

/-- Claim C7 witness: the severe candidate is forced to CRIME, the
mild candidate with an ordinary tag is forced to NEGATIVE, and the
unknown tag with a positive modifier defaults to COMMON. -/
theorem C7_witness :
    (sanitizeTrait "generated" rawTraitSevere).rarity = TraitRarity.CRIME
    ∧ (sanitizeTrait "generated" rawTraitMild).rarity = TraitRarity.NEGATIVE
    ∧ (sanitizeTrait "generated" rawTraitUnknown).rarity = TraitRarity.COMMON :=
  ⟨(C7_rarity_rules "generated" rawTraitSevere).1 (by decide) (by decide)
     (by decide) (by decide),
   (C7_rarity_rules "generated" rawTraitMild).2.1 (by decide) (by decide)
     (by decide) (by decide) (by decide),
   (C7_rarity_rules "generated" rawTraitUnknown).2.2 (by decide) (by decide)⟩

/-- A concrete action context reporting an earned star. -/
def ctxStar : ActionContext := { ctxBase with earnedStar := true }

/-- A concrete threshold-50 session with no red stars held. -/
def session50 : RollSession :=
  { calculatedThreshold := 50, activeCritThreshold := 95
    interactionStarsConsumed := 0, redStars := 0 }

/-- Claim C10: an ordinary non-critical SUCCESS whose final draw
strictly exceeds 85 reports an earned fate point, and during the merge
an earned fate point is added pre-clamp and capped at the soft maximum
of 5. -/
theorem C10_success_star_source (s : RollSession) (draw : Int)
    (ds : List (Bool × Int))
    (h1 : classifyRoll draw s.calculatedThreshold s.activeCritThreshold
      = RollResult.SUCCESS)
    (h2 : draw > 85) :
    (resolveInteraction s draw ds).result = RollResult.SUCCESS
    ∧ (resolveInteraction s draw ds).earnStar = true
    ∧ (∀ (response : Response) (prevState : GameState) (c : ActionContext),
      c.earnedStar = true →
      (updateGameStateFromResponse false response prevState (some c)).stats.redStars
        = min 5 (prevState.stats.redStars + 1)) := by
  have hres : resolveInteraction s draw ds
      = { result := RollResult.SUCCESS
          earnStar := earnStarOnResolve draw RollResult.SUCCESS
          consumedRedStars := s.interactionStarsConsumed } := by
    cases ds with
    | nil =>
      unfold resolveInteraction
      rw [h1]
      rw [if_pos rfl]
    | cons hd tl =>
      unfold resolveInteraction
      rw [h1]
      rw [if_pos rfl]
  refine ⟨?_, ?_, ?_⟩
  · rw [hres]
  · rw [hres]
    simp [earnStarOnResolve, h2]
  · intro response prevState c hc
    have hdef : (updateGameStateFromResponse false response prevState
          (some c)).stats.redStars
        = (if c.earnedStar then min 5 (prevState.stats.redStars + 1)
           else prevState.stats.redStars) := rfl
    rw [hdef, if_pos hc]

/-- Claim C10 witness: a draw of 86 against threshold 50 with critical
floor 95 is an ordinary SUCCESS that earns a star, and the concrete
merge of an earned star on a balance of 2 yields 3, the capped sum. -/
theorem C10_witness :
    classifyRoll 86 session50.calculatedThreshold session50.activeCritThreshold
      = RollResult.SUCCESS
    ∧ (resolveInteraction session50 86 []).earnStar = true
    ∧ (updateGameStateFromResponse false responseBase stateBase
        (some ctxStar)).stats.redStars = min 5 (stateBase.stats.redStars + 1) :=
  ⟨by decide,
   (C10_success_star_source session50 86 [] (by decide) (by decide)).2.1,
   (C10_success_star_source session50 86 [] (by decide) (by decide)).2.2
     responseBase stateBase ctxStar (by decide)⟩

end WgaiLifeSim
